import Mathlib

/-!
# Verification of the abstract-comedy actor framework core

Shallow embedding of the actor-system placement logic (`ActorSystem` in the
repository source), the logger wrapper (`LogWrapper.ts`) and the logger
configuration holder (`LoggerConfiguration.ts`), together with theorems
settling the specification claims about them.

JavaScript option objects are modelled as association lists of key/value
pairs where lookup returns the first binding; `_.extend(dst, s1, s2)` is
modelled by list concatenation with later sources taking precedence on
lookup.  Absent values are `Option.none`; JavaScript truthiness is made
explicit wherever the source branches on it.
-/

namespace AbstractComedy

/-- A JavaScript primitive value appearing in option / configuration
objects: a string or a number. -/
inductive JVal where
  | str (s : String)
  | num (n : Int)
  deriving DecidableEq, Repr

/-- A JavaScript object viewed as an association list; earlier bindings
shadow later ones on lookup (the representation of `_.extend` below pushes
the overriding source to the front). -/
abbrev JObj := List (String × JVal)

/-- Property lookup on a modelled object: first binding wins. -/
def lookupJ (o : JObj) (k : String) : Option JVal :=
  match o with
  | [] => none
  | (k0, v) :: rest => if k0 = k then some v else lookupJ rest k

/-- `_.extend(a, b)`: all keys of `b` override those of `a`.  With the
first-binding-wins lookup this is concatenation with `b` in front. -/
def extendJ (a b : JObj) : JObj := b ++ a

/-- The actor configuration held by the system: a map from decapitalized
actor names to per-actor placement-override objects. -/
abbrev ActorConfig := List (String × JObj)

/-- Lookup of an actor entry in the configuration map. -/
def lookupConfig (c : ActorConfig) (k : String) : Option JObj :=
  match c with
  | [] => none
  | (k0, v) :: rest => if k0 = k then some v else lookupConfig rest k

/-- `s.decapitalize` from underscore.string: lower-case the first
character, keep the rest. -/
def decapitalize (s : String) : String :=
  match s.data with
  | [] => ""
  | c :: cs => String.mk (c.toLower :: cs)

/-- The default placement options of `createActor`. -/
def defaultPlacement : JObj := [("mode", JVal.str "in-memory")]

/-- The option-resolution step of `ActorSystem.createActor`: when the
system holds a configuration and the actor name is truthy, the caller
options are merged as
`_.extend({mode:"in-memory"}, config[decapitalize(name)], options)`
(`_.extend` ignores an `undefined` source, hence the `none` branch). -/
def createActorEffectiveOptions (config : Option ActorConfig) (actorName : String)
    (opts : JObj) : JObj :=
  match config with
  | some cfg =>
      if actorName = "" then opts
      else
        match lookupConfig cfg (decapitalize actorName) with
        | some entry => extendJ (extendJ defaultPlacement entry) opts
        | none => extendJ defaultPlacement opts
  | none => opts

/-- The settled state of a bluebird promise. -/
inductive PResult (α : Type) where
  | resolved (a : α)
  | rejected (e : String)
  deriving DecidableEq, Repr

/-- The observable outcome of calling a JavaScript function that returns a
promise: either the call throws before returning (synchronous throw), or it
returns a promise that later settles. -/
inductive CallResult (α : Type) where
  | syncThrow (e : String)
  | async (p : PResult α)
  deriving DecidableEq, Repr

/-- The placement decision reached by `createActor` after option
resolution. -/
inductive Placement where
  | inMemory
  | forked
  | cluster
  deriving DecidableEq, Repr

/-- `options.clusterSize > 1` under JavaScript semantics: an absent
`clusterSize` compares as `NaN > 1`, i.e. `false`. -/
def clusterRequested (clusterSize : Option Int) : Bool :=
  match clusterSize with
  | some n => n > 1
  | none => false

/-- `options.mode || "in-memory"`: a falsy mode (absent or the empty
string) falls back to the default. -/
def modeOrDefault (mode : Option String) : String :=
  match mode with
  | some s => if s = "" then "in-memory" else s
  | none => "in-memory"

/-- The dispatch tail of `ActorSystem.createActor` after option merging:
clusterization when `clusterSize > 1`, otherwise a switch on
`options.mode || "in-memory"`.  The `default` branch of the switch is
`return P.resolve().throw(new Error("Unknown actor mode: " + options.mode))`,
i.e. a returned promise that rejects (in the default branch `options.mode`
is necessarily a truthy string, so it coincides with `modeOrDefault mode`). -/
def createActorDispatch (mode : Option String) (clusterSize : Option Int) :
    CallResult Placement :=
  if clusterRequested clusterSize then
    CallResult.async (PResult.resolved Placement.cluster)
  else if modeOrDefault mode = "in-memory" then
    CallResult.async (PResult.resolved Placement.inMemory)
  else if modeOrDefault mode = "forked" then
    CallResult.async (PResult.resolved Placement.forked)
  else
    CallResult.async (PResult.rejected ("Unknown actor mode: " ++ modeOrDefault mode))

/-- The body of a wire frame, carrying an optional actor id. -/
structure FrameBody where
  id : Option String
  deriving DecidableEq, Repr

/-- A wire frame received from a forked worker: a `type`, an optional
`body` and an optional top-level `error` string. -/
structure Frame where
  type : String
  body : Option FrameBody
  error : Option String
  deriving DecidableEq, Repr

/-- JavaScript truthiness of an optional string: present and non-empty. -/
def truthyStr (s : Option String) : Bool :=
  match s with
  | some s0 => s0 ≠ ""
  | none => false

/-- `msg.body && msg.body.id` as a truthy value: returns the id when the
body is present and its id is present and non-empty. -/
def bodyIdTruthy (b : Option FrameBody) : Option String :=
  match b with
  | some body =>
      match body.id with
      | some i => if i = "" then none else some i
      | none => none
  | none => none

/-- The data `ForkedActorParent` is constructed from in `createForkedActor`:
the parent reference, the worker transport, the received id and the actor
name (the system reference is implicit).  `ρ` and `τ` abstract the parent
and transport types. -/
structure ForkedActorParentRef (ρ τ : Type) where
  parent : ρ
  transport : τ
  id : String
  name : String
  deriving DecidableEq, Repr

/-- The outcome of a forked spawn: the create-actor promise resolves with a
`ForkedActorParent` or rejects with an error message. -/
inductive SpawnOutcome (ρ τ : Type) where
  | resolved (actor : ForkedActorParentRef ρ τ)
  | rejected (e : String)
  deriving DecidableEq, Repr

/-- The rejection message for a malformed create-actor response. -/
def unexpectedResponseMsg : String :=
  "Unexpected response for \"create-actor\" message."

/-- The classification of the first frame received from the worker after
`create-actor` is sent (the `workerProcess.once("message", ...)` handler in
`createForkedActor`): a truthy `error` field rejects with that text; then a
frame that is not `actor-created` or lacks a truthy `body.id` rejects with
the unexpected-response message; otherwise the spawn resolves with a
`ForkedActorParent` built from the id, the transport, the parent and the
actor name. -/
def classifyCreateActorResponse {ρ τ : Type} (parent : ρ) (workerProcess : τ)
    (actorName : String) (msg : Frame) : SpawnOutcome ρ τ :=
  if truthyStr msg.error then
    SpawnOutcome.rejected (msg.error.getD "")
  else
    match bodyIdTruthy msg.body with
    | some i =>
        if msg.type = "actor-created" then
          SpawnOutcome.resolved ⟨parent, workerProcess, i, actorName⟩
        else SpawnOutcome.rejected unexpectedResponseMsg
    | none => SpawnOutcome.rejected unexpectedResponseMsg

/-- The channel a log entry is written to. -/
inductive LogChan where
  | info
  | warn
  | debugChan
  | errChan
  deriving DecidableEq, Repr

/-- The log produced by an operation: a list of (channel, message) pairs in
emission order. -/
abbrev LogOutput := List (LogChan × String)

/-- The environment `_loadConfiguration` runs in: the filesystem read
primitive, the JSON parser (both fallible), the application root path and
the `forked` option flag. -/
structure SysEnv where
  readFile : String → Except String String
  parseJson : String → Except String ActorConfig
  appRoot : String
  forked : Bool

/-- The argument of `_loadConfiguration`, after the `_.isObject` /
`_.isString` tests: a data object, a path string, or absent. -/
inductive ConfigInput where
  | objData (c : ActorConfig)
  | pathStr (p : String)
  | absent
  deriving DecidableEq, Repr

/-- `promise.catch(handler)` over the settled-value model. -/
def pcatch {α : Type} (x : Except String α) (h : String → Except String α) :
    Except String α :=
  match x with
  | Except.ok a => Except.ok a
  | Except.error e => h e

/-- The default configuration path `appRootPath + "/actors.json"`. -/
def defaultConfigPath (env : SysEnv) : String := env.appRoot ++ "/actors.json"

/-- The tail of `_loadConfiguration` reached with no argument: read the
default path and parse it; any failure is caught, logged on the info
channel, and the system proceeds with no configuration. -/
def loadConfigurationDefault (env : SysEnv) :
    Except String (Option ActorConfig × LogOutput) :=
  pcatch
    ((env.readFile (defaultConfigPath env) >>= env.parseJson).map fun cfg =>
      (some cfg,
        [(LogChan.info, "Using actor configuration file: " ++ defaultConfigPath env)]))
    (fun _ =>
      Except.ok (none,
        [(LogChan.info,
          "Failed to load actor configuration file " ++ defaultConfigPath env
            ++ ", no actor configuration will be used.")]))

/-- `ActorSystem._loadConfiguration(config)`: a data object is used
directly; a path string is read and parsed, any failure being caught,
logged on the info channel, and retried at the default path via the
no-argument call.  The result is the configuration the system ends up with
together with the emitted log. -/
def loadConfiguration (env : SysEnv) (input : ConfigInput) :
    Except String (Option ActorConfig × LogOutput) :=
  match input with
  | ConfigInput.objData c =>
      Except.ok (some c,
        if env.forked then []
        else [(LogChan.info, "Using programmatic actor configuration.")])
  | ConfigInput.pathStr p =>
      pcatch
        ((env.readFile p >>= env.parseJson).map fun cfg =>
          (some cfg, [(LogChan.info, "Using actor configuration file: " ++ p)]))
        (fun _ =>
          match loadConfigurationDefault env with
          | Except.ok (cfg, logs) =>
              Except.ok (cfg,
                (LogChan.info,
                  "Failed to load actor configuration file " ++ p
                    ++ ", will try default path: " ++ defaultConfigPath env) :: logs)
          | Except.error e => Except.error e)
  | ConfigInput.absent => loadConfigurationDefault env

/-- A JavaScript `name` property value: a plain string or a function
returning a string (resolved by `_.result`). -/
inductive NameVal where
  | strVal (s : String)
  | fnVal (ret : String)
  deriving DecidableEq, Repr

/-- Truthiness of a `name` property value: a function is always truthy, a
string is truthy when non-empty. -/
def nameTruthy (v : NameVal) : Bool :=
  match v with
  | NameVal.strVal s => s ≠ ""
  | NameVal.fnVal _ => true

/-- `_.result(behaviour0, "name")`: a function value is invoked, a plain
value is returned as is. -/
def nameResultVal (v : NameVal) : String :=
  match v with
  | NameVal.strVal s => s
  | NameVal.fnVal r => r

/-- The observable surface of a behaviour instance, as probed by
`_actorName`: its `name` property (if any), its `getName` method and the
string it returns (if any), and `constructor && constructor.name` (if
any).  For a plain object literal `ctorName` is `some "Object"`, because
JavaScript object literals inherit `constructor` from `Object.prototype`
and `Object.name` is `"Object"`. -/
structure BehaviourInst where
  nameProp : Option NameVal
  getNameFn : Option String
  ctorName : Option String
  deriving DecidableEq, Repr

/-- A behaviour definition: a constructable (function — `_actorName`
instantiates it and probes the instance) or a plain value probed
directly. -/
inductive Behaviour where
  | constructable (inst : BehaviourInst)
  | objValue (inst : BehaviourInst)
  deriving DecidableEq, Repr

/-- The `behaviour0` that `_actorName` actually probes: the instance
resulting from `new Behaviour()` when the behaviour is a function,
otherwise the behaviour itself. -/
def Behaviour.resolve (b : Behaviour) : BehaviourInst :=
  match b with
  | Behaviour.constructable i => i
  | Behaviour.objValue i => i

/-- The `if (behaviour0.name) return _.result(behaviour0, "name")` step:
yields the resolved name when the `name` property is truthy. -/
def namePropTruthy (i : BehaviourInst) : Option String :=
  match i.nameProp with
  | some v => if nameTruthy v then some (nameResultVal v) else none
  | none => none

/-- `ActorSystem._actorName(Behaviour)`: instantiate a constructable, then
try the truthy `name` property, then `getName()`, then
`constructor && constructor.name`, else the empty string. -/
def actorNameOf (b : Behaviour) : String :=
  let i := b.resolve
  match namePropTruthy i with
  | some s => s
  | none =>
      match i.getNameFn with
      | some r => r
      | none =>
          match i.ctorName with
          | some c => if c = "" then "" else c
          | none => ""

/-- The model of a plain data record of handlers with no `name` property
and no `getName` method: a JavaScript object literal, whose inherited
`constructor` is `Object`, so `constructor.name` is `"Object"`. -/
def plainHandlerRecord : Behaviour :=
  Behaviour.objValue { nameProp := none, getNameFn := none, ctorName := some "Object" }

/-- The result of the system `require` helper: delegate to the ambient
loader unchanged, load a whole directory under a path, or load a single
module under a path. -/
inductive RequireResult where
  | globalReq (p : String)
  | dirReq (p : String)
  | globalAppReq (p : String)
  deriving DecidableEq, Repr

/-- `ActorSystem.require(modulePath)`: a path whose first character is
neither `/` nor `.` is delegated to the ambient loader unchanged (an empty
path has `modulePath[0] === undefined`, which also takes that branch); a
path starting with `/` or `.` loads a directory under
`appRootPath + modulePath` when it ends with `/`, and a module under
`appRootPath + modulePath` otherwise. -/
def requireHelper (appRoot : String) (p : String) : RequireResult :=
  match p.data with
  | [] => RequireResult.globalReq p
  | c :: _ =>
      if c ≠ '/' ∧ c ≠ '.' then RequireResult.globalReq p
      else if p.data.getLast? = some '/' then RequireResult.dirReq (appRoot ++ p)
      else RequireResult.globalAppReq (appRoot ++ p)

/-- The literal flag text matched by the debug-port rewrite. -/
def debugBrkFlag : String := "--debug-brk="

/-- Strip a literal character-list prefix, returning the remainder when
the prefix matches. -/
def stripFlagChars : List Char → List Char → Option (List Char)
  | [], rest => some rest
  | _ :: _, [] => none
  | f :: fs, c :: cs => if c = f then stripFlagChars fs cs else none

/-- `parseInt` on a non-empty run of decimal digit characters. -/
def digitsToNat (ds : List Char) : Nat :=
  ds.foldl (fun acc c => acc * 10 + (c.toNat - 48)) 0

/-- `arg.match(/^--debug-brk=(\d+)/)` followed by `parseInt(match[1])`: the
argument must start with `--debug-brk=` followed by at least one digit; the
captured port is the maximal leading digit run (trailing non-digits are
allowed, as the regex is not end-anchored). -/
def parseDebugBrk (arg : String) : Option Nat :=
  match stripFlagChars debugBrkFlag.data arg.data with
  | some rest =>
      let digits := rest.takeWhile Char.isDigit
      if digits = [] then none else some (digitsToNat digits)
  | none => none

/-- One step of the `_.map(process.execArgv, ...)` body in
`createForkedActor`: a matching argument is rewritten to
`"--debug-brk=" + (debugPort + this.debugPortCounter++)` (post-increment),
any other argument is returned unchanged. -/
def rewriteArg (counter : Nat) (arg : String) : String × Nat :=
  match parseDebugBrk arg with
  | some port => (debugBrkFlag ++ toString (port + counter), counter + 1)
  | none => (arg, counter)

/-- The whole `execArgv` rewrite of one forked spawn, threading the
system's `debugPortCounter` left to right. -/
def rewriteArgs (counter : Nat) (args : List String) : List String × Nat :=
  match args with
  | [] => ([], counter)
  | a :: rest =>
      let r := rewriteArg counter a
      let r2 := rewriteArgs r.2 rest
      (r.1 :: r2.1, r2.2)

/-- The `execArgv` lists passed to `n` successive forked spawns of one
system: each spawn rewrites the (fixed) `process.execArgv` with the current
counter and leaves the advanced counter to the next spawn.  The counter
starts at 1 (`this.debugPortCounter = 1` in the constructor). -/
def spawnSeq (execArgv : List String) (counter : Nat) (n : Nat) : List (List String) :=
  match n with
  | 0 => []
  | Nat.succ k =>
      let r := rewriteArgs counter execArgv
      r.1 :: spawnSeq execArgv r.2 k

/-- `ActorSystem.default()`, acting on the module-level `defaultSystem`
variable.  The state is `none` when `defaultSystem` is still `undefined`;
instances are numbered and `freshId` stands for the next
`new ActorSystem()`.  The source reads
`if (defaultSystem) { defaultSystem = new ActorSystem(); } return defaultSystem;`:
a truthy state is overwritten with a fresh instance, an unset state is
returned (still `undefined`) without allocating.  The result is the pair
(returned value, new state of `defaultSystem`). -/
def defaultAccessor (state : Option Nat) (freshId : Nat) : Option Nat × Option Nat :=
  match state with
  | some _ => (some freshId, some freshId)
  | none => (none, none)

/-- Modelled from the spec: the numeric `LogLevel` values come from the
external package `@some1one/js-utils-extended`, which is not part of this
repository.  The spec describes a logging subsystem with leveled categories
and a "silent" mode in which nothing is emitted; the `level >= LogLevel.X`
guards in `LogWrapper` then require `Silent` to sit below every message
level and `Debug` to be the most verbose (highest) level. -/
def silentLevel : Nat := 0

/-- Modelled from the spec: see `silentLevel`. -/
def errorLevel : Nat := 1

/-- Modelled from the spec: see `silentLevel`. -/
def warnLevel : Nat := 2

/-- Modelled from the spec: see `silentLevel`. -/
def infoLevel : Nat := 3

/-- Modelled from the spec: see `silentLevel`. -/
def debugLevel : Nat := 4

/-- `LogWrapper.debug(message)`: emit on the debug channel only when
`this.level >= LogLevel.Debug`.  The result is the emitted output. -/
def LogWrapper.debugOut (level : Nat) (message : String) : LogOutput :=
  if level ≥ debugLevel then [(LogChan.debugChan, message)] else []

/-- `LogWrapper.log(message)`: emit on the info channel only when
`this.level >= LogLevel.Info`. -/
def LogWrapper.logOut (level : Nat) (message : String) : LogOutput :=
  if level ≥ infoLevel then [(LogChan.info, message)] else []

/-- `LogWrapper.info(message)`: emit on the info channel only when
`this.level >= LogLevel.Info`. -/
def LogWrapper.infoOut (level : Nat) (message : String) : LogOutput :=
  if level ≥ infoLevel then [(LogChan.info, message)] else []

/-- `LogWrapper.warn(message)`: emit on the warn channel only when
`this.level >= LogLevel.Warn`. -/
def LogWrapper.warnOut (level : Nat) (message : String) : LogOutput :=
  if level ≥ warnLevel then [(LogChan.warn, message)] else []

/-- The argument of `LogWrapper.error`: a plain string, or an `Error`
object with a `message`, an optional `stack` and an `isOperational`
marker. -/
inductive ErrMessage where
  | plain (s : String)
  | errObj (message : String) (stack : Option String) (isOperational : Bool)
  deriving DecidableEq, Repr

/-- The string `LogWrapper.error` extracts from its argument: an
operational error contributes its `message`, any other error its `stack`
(falling back to `message`), a plain string is passed through. -/
def errMessageString (m : ErrMessage) : String :=
  match m with
  | ErrMessage.plain s => s
  | ErrMessage.errObj msg st op => if op then msg else st.getD msg

/-- `LogWrapper.error(message)`: always emits exactly one entry on the
error channel — unlike the other methods, the source has no `this.level`
guard here. -/
def LogWrapper.errorOut (level : Nat) (message : ErrMessage) : LogOutput :=
  [(LogChan.errChan, errMessageString message)]

/-- The `categories` property of a value assigned to
`LoggerConfiguration.current`, as seen by `typeof x.categories`: a real
object of category levels, `null` (for which `typeof` is also
`"object"`), some other non-object value, or absent. -/
inductive CategoriesVal where
  | objVal (m : List (String × Nat))
  | nullVal
  | otherVal (s : String)
  deriving DecidableEq, Repr

/-- A value assignable to `LoggerConfiguration.current`, reduced to the
field the setter inspects. -/
structure ConfigDict where
  categories : Option CategoriesVal
  deriving DecidableEq, Repr

/-- `typeof this._current.categories === "object"`: true for a real object
and for `null` (JavaScript quirk), false for other values and for an
absent property (`typeof undefined === "undefined"`). -/
def typeofIsObject (c : Option CategoriesVal) : Bool :=
  match c with
  | some (CategoriesVal.objVal _) => true
  | some CategoriesVal.nullVal => true
  | some (CategoriesVal.otherVal _) => false
  | none => false

/-- The default categories object `{ Default: LogLevel.Info }`. -/
def defaultCategories : CategoriesVal :=
  CategoriesVal.objVal [("Default", infoLevel)]

/-- `_.extend(this._current, { categories: { Default: LogLevel.Info } })`
with lodash semantics (`LoggerConfiguration.ts` imports lodash): the
assigner first coerces its destination with `object = Object(object)`, so
a null-ish destination becomes a fresh plain object, and then copies the
`categories` property onto the destination. -/
def extendWithDefaultCategories (cur : Option ConfigDict) : Option ConfigDict :=
  match cur with
  | none => some { categories := some defaultCategories }
  | some d => some { d with categories := some defaultCategories }

/-- The observable result of one assignment to
`LoggerConfiguration.current`: the value stored in `_current` and the
number of `configChange` emissions performed. -/
structure SetterResult where
  stored : Option ConfigDict
  events : Nat
  deriving DecidableEq, Repr

/-- The `current` setter of `LoggerConfiguration`: store the value; when it
is null-ish or its `categories` is not `typeof "object"`, replace the store
with `_.extend(store, { categories: { Default: LogLevel.Info } })`; finally
emit exactly one `configChange` event.  `none` models an assigned
`null`/`undefined`. -/
def currentSetter (value : Option ConfigDict) : SetterResult :=
  let invalid :=
    match value with
    | none => true
    | some d => !(typeofIsObject d.categories)
  { stored := if invalid then extendWithDefaultCategories value else value
    events := 1 }

/-- Whether a stored configuration actually holds a `categories` object. -/
def hasCategoriesObject (stored : Option ConfigDict) : Bool :=
  match stored with
  | some d =>
      match d.categories with
      | some (CategoriesVal.objVal _) => true
      | _ => false
  | none => false

/-- A concrete environment in which every file read and every JSON parse
fails. -/
def failingEnv : SysEnv where
  readFile := fun _ => Except.error "ENOENT"
  parseJson := fun _ => Except.error "unexpected token"
  appRoot := "/app"
  forked := false

theorem lookupJ_append (a b : JObj) (k : String) :
    lookupJ (a ++ b) k = (lookupJ a k).orElse (fun _ => lookupJ b k) := by
  induction a with
  | nil => simp [lookupJ]
  | cons hd tl ih =>
      cases hd with
      | mk k0 v =>
          by_cases h : k0 = k
          · simp [lookupJ, h]
          · simp [lookupJ, h, ih]

/-- C1: when the system holds a configuration with an entry under the
decapitalized actor name, the effective placement options of `createActor`
are the merge of the default `{mode:"in-memory"}`, overridden by the config
entry, overridden by the caller options — on every key, the caller option
wins, then the config entry, then the default. -/
theorem c1_config_precedence (cfg : ActorConfig) (actorName : String)
    (entry opts : JObj) (hname : actorName ≠ "")
    (hentry : lookupConfig cfg (decapitalize actorName) = some entry) (k : String) :
    lookupJ (createActorEffectiveOptions (some cfg) actorName opts) k
      = (lookupJ opts k).orElse (fun _ =>
          (lookupJ entry k).orElse (fun _ => lookupJ defaultPlacement k)) := by
  simp [createActorEffectiveOptions, hname, hentry, extendJ, lookupJ_append]

/-- C1 witness: with config `{foo:{mode:"forked", clusterSize:3}}` and a
call for behaviour name `Foo` with caller options `{clusterSize:1}`, the
effective placement is `{mode:"forked", clusterSize:1}`. -/
theorem c1_config_precedence_witness :
    lookupJ (createActorEffectiveOptions
        (some [("foo", [("mode", JVal.str "forked"), ("clusterSize", JVal.num 3)])])
        "Foo" [("clusterSize", JVal.num 1)]) "mode" = some (JVal.str "forked")
  ∧ lookupJ (createActorEffectiveOptions
        (some [("foo", [("mode", JVal.str "forked"), ("clusterSize", JVal.num 3)])])
        "Foo" [("clusterSize", JVal.num 1)]) "clusterSize" = some (JVal.num 1) := by
  have hm := c1_config_precedence
    [("foo", [("mode", JVal.str "forked"), ("clusterSize", JVal.num 3)])] "Foo"
    [("mode", JVal.str "forked"), ("clusterSize", JVal.num 3)]
    [("clusterSize", JVal.num 1)] (by decide) (by decide) "mode"
  have hc := c1_config_precedence
    [("foo", [("mode", JVal.str "forked"), ("clusterSize", JVal.num 3)])] "Foo"
    [("mode", JVal.str "forked"), ("clusterSize", JVal.num 3)]
    [("clusterSize", JVal.num 1)] (by decide) (by decide) "clusterSize"
  exact ⟨hm.trans (by decide), hc.trans (by decide)⟩

/-- C2 counterexample: for the unrecognized mode `"remote"` (with no
clusterization), `createActor` does not throw synchronously — it returns a
promise that rejects with the unknown-mode error, so the error is an
asynchronous rejection of the returned promise, contradicting the claim
that it is raised before `createActor` returns. -/
theorem c2_unknown_mode_counterexample :
    createActorDispatch (some "remote") none
      = CallResult.async (PResult.rejected "Unknown actor mode: remote")
  ∧ createActorDispatch (some "remote") none
      ≠ CallResult.syncThrow "Unknown actor mode: remote" := by
  decide

/-- C2 (amended): for every effective placement mode that is neither
`"in-memory"` nor `"forked"` (and truthy, and with no clusterization),
`createActor` returns a promise that rejects asynchronously with the
unknown-mode error. -/
theorem c2_unknown_mode_async_rejection (mode : String) (clusterSize : Option Int)
    (h1 : mode ≠ "in-memory") (h2 : mode ≠ "forked") (h3 : mode ≠ "")
    (hc : clusterRequested clusterSize = false) :
    createActorDispatch (some mode) clusterSize
      = CallResult.async (PResult.rejected ("Unknown actor mode: " ++ mode)) := by
  simp [createActorDispatch, modeOrDefault, hc, h1, h2, h3]

/-- C2 witness: the amended statement evaluated at mode `"remote"` and
clusterSize 1. -/
theorem c2_unknown_mode_async_rejection_witness :
    createActorDispatch (some "remote") (some 1)
      = CallResult.async (PResult.rejected ("Unknown actor mode: " ++ "remote")) :=
  c2_unknown_mode_async_rejection "remote" (some 1)
    (by decide) (by decide) (by decide) (by decide)

/-- C3: the first frame received after `create-actor` is classified in
exactly three ways — a truthy `error` field rejects the spawn with that
error text; otherwise a frame of type `actor-created` whose body carries a
truthy id resolves the spawn with a `ForkedActorParent` built from that id,
the worker transport, the parent and the actor name; any other frame shape
rejects the spawn with the unexpected-response error. -/
theorem c3_create_actor_response_classification {ρ τ : Type} (parent : ρ) (wp : τ)
    (actorName : String) (msg : Frame) :
    (∀ e, msg.error = some e → e ≠ "" →
        classifyCreateActorResponse parent wp actorName msg = SpawnOutcome.rejected e)
  ∧ (truthyStr msg.error = false →
      ∀ b i, msg.body = some b → b.id = some i → i ≠ "" → msg.type = "actor-created" →
        classifyCreateActorResponse parent wp actorName msg
          = SpawnOutcome.resolved ⟨parent, wp, i, actorName⟩)
  ∧ (truthyStr msg.error = false →
      (msg.type ≠ "actor-created" ∨ bodyIdTruthy msg.body = none) →
        classifyCreateActorResponse parent wp actorName msg
          = SpawnOutcome.rejected unexpectedResponseMsg) := by
  refine ⟨?_, ?_, ?_⟩
  · intro e he hne
    simp [classifyCreateActorResponse, truthyStr, he, hne]
  · intro herr b i hb hi hine htype
    simp [classifyCreateActorResponse, herr, bodyIdTruthy, hb, hi, hine, htype]
  · intro herr hbad
    rcases hbad with h | h
    · cases hbi : bodyIdTruthy msg.body with
      | none => simp [classifyCreateActorResponse, herr, hbi]
      | some i => simp [classifyCreateActorResponse, herr, hbi, h]
    · simp [classifyCreateActorResponse, herr, h]

/-- C3 witness: a well-formed `actor-created` frame with id `"abc123"`
resolves the spawn with the corresponding `ForkedActorParent`. -/
theorem c3_create_actor_response_classification_witness :
    classifyCreateActorResponse (0 : Nat) (7 : Nat) "worker"
        { type := "actor-created", body := some { id := some "abc123" }, error := none }
      = SpawnOutcome.resolved ⟨0, 7, "abc123", "worker"⟩ :=
  (c3_create_actor_response_classification 0 7 "worker"
      { type := "actor-created", body := some { id := some "abc123" }, error := none }).2.1
    (by decide) { id := some "abc123" } "abc123" rfl rfl (by decide) rfl

theorem loadConfigurationDefault_ok_eq (env : SysEnv) (cfg : ActorConfig)
    (h : env.readFile (defaultConfigPath env) >>= env.parseJson = Except.ok cfg) :
    loadConfigurationDefault env
      = Except.ok (some cfg,
          [(LogChan.info, "Using actor configuration file: " ++ defaultConfigPath env)]) := by
  simp [loadConfigurationDefault, pcatch, Except.map, h]

theorem loadConfigurationDefault_error_eq (env : SysEnv) (e : String)
    (h : env.readFile (defaultConfigPath env) >>= env.parseJson = Except.error e) :
    loadConfigurationDefault env
      = Except.ok (none,
          [(LogChan.info,
            "Failed to load actor configuration file " ++ defaultConfigPath env
              ++ ", no actor configuration will be used.")]) := by
  simp [loadConfigurationDefault, pcatch, Except.map, h]

theorem loadConfigurationDefault_never_rejects (env : SysEnv) :
    ∃ r, loadConfigurationDefault env = Except.ok r := by
  cases h : env.readFile (defaultConfigPath env) >>= env.parseJson with
  | ok cfg => exact ⟨_, loadConfigurationDefault_ok_eq env cfg h⟩
  | error e => exact ⟨_, loadConfigurationDefault_error_eq env e h⟩

theorem loadConfiguration_path_ok_eq (env : SysEnv) (p : String) (cfg : ActorConfig)
    (h : env.readFile p >>= env.parseJson = Except.ok cfg) :
    loadConfiguration env (ConfigInput.pathStr p)
      = Except.ok (some cfg, [(LogChan.info, "Using actor configuration file: " ++ p)]) := by
  simp [loadConfiguration, pcatch, Except.map, h]

theorem loadConfiguration_path_error_eq (env : SysEnv) (p e : String)
    (cfg : Option ActorConfig) (logs : LogOutput)
    (h : env.readFile p >>= env.parseJson = Except.error e)
    (hd : loadConfigurationDefault env = Except.ok (cfg, logs)) :
    loadConfiguration env (ConfigInput.pathStr p)
      = Except.ok (cfg,
          (LogChan.info,
            "Failed to load actor configuration file " ++ p
              ++ ", will try default path: " ++ defaultConfigPath env) :: logs) := by
  simp [loadConfiguration, pcatch, Except.map, h, hd]

/-- C4 counterexample: with a filesystem on which every read fails, loading
the configuration from the path `/bad.json` logs both fallback messages on
the info channel — no warning-level entry is ever emitted, contradicting
the claim that a warning is logged at each degradation step. -/
theorem c4_config_load_counterexample :
    loadConfiguration failingEnv (ConfigInput.pathStr "/bad.json")
      = Except.ok (none,
          [(LogChan.info,
            "Failed to load actor configuration file /bad.json, will try default path: /app/actors.json"),
           (LogChan.info,
            "Failed to load actor configuration file /app/actors.json, no actor configuration will be used.")]) := by
  rfl

/-- C4 (amended): configuration loading never rejects; a data record is
used directly; a path string whose read or parse fails logs an info-level
message and falls back to the default path `<appRoot>/actors.json`; if that
also fails, an info-level message is logged and the system proceeds with no
configuration. -/
theorem c4_config_load_never_rejects (env : SysEnv) (input : ConfigInput) :
    (∃ r, loadConfiguration env input = Except.ok r)
  ∧ (∀ c, input = ConfigInput.objData c →
      loadConfiguration env input
        = Except.ok (some c,
            if env.forked then []
            else [(LogChan.info, "Using programmatic actor configuration.")]))
  ∧ (∀ p e, input = ConfigInput.pathStr p →
      (env.readFile p >>= env.parseJson) = Except.error e →
      ∃ cfg logs, loadConfigurationDefault env = Except.ok (cfg, logs) ∧
        loadConfiguration env input
          = Except.ok (cfg,
              (LogChan.info,
                "Failed to load actor configuration file " ++ p
                  ++ ", will try default path: " ++ defaultConfigPath env) :: logs))
  ∧ (∀ e, (env.readFile (defaultConfigPath env) >>= env.parseJson) = Except.error e →
      loadConfigurationDefault env
        = Except.ok (none,
            [(LogChan.info,
              "Failed to load actor configuration file " ++ defaultConfigPath env
                ++ ", no actor configuration will be used.")])) := by
  refine ⟨?_, ?_, ?_, ?_⟩
  · cases input with
    | objData c => exact ⟨_, rfl⟩
    | pathStr p =>
        cases h : env.readFile p >>= env.parseJson with
        | ok cfg => exact ⟨_, loadConfiguration_path_ok_eq env p cfg h⟩
        | error e =>
            obtain ⟨⟨cfg, logs⟩, hd⟩ := loadConfigurationDefault_never_rejects env
            exact ⟨_, loadConfiguration_path_error_eq env p e cfg logs h hd⟩
    | absent => exact loadConfigurationDefault_never_rejects env
  · intro c hin
    subst hin
    rfl
  · intro p e hin herr
    subst hin
    obtain ⟨⟨cfg, logs⟩, hd⟩ := loadConfigurationDefault_never_rejects env
    exact ⟨cfg, logs, hd, loadConfiguration_path_error_eq env p e cfg logs herr hd⟩
  · intro e herr
    exact loadConfigurationDefault_error_eq env e herr

/-- C4 witness: the amended statement evaluated on the all-failing
environment with a programmatic data record, which is used directly. -/
theorem c4_config_load_never_rejects_witness :
    loadConfiguration failingEnv (ConfigInput.objData [])
      = Except.ok (some [], [(LogChan.info, "Using programmatic actor configuration.")]) := by
  have h := (c4_config_load_never_rejects failingEnv (ConfigInput.objData [])).2.1 [] rfl
  simpa [failingEnv] using h

/-- C5 counterexample: a plain data record of handlers with no `name`
property and no `getName` method does not resolve to the empty string — a
JavaScript object literal inherits `constructor` from `Object.prototype`,
so `_actorName` returns `"Object"`. -/
theorem c5_actor_name_counterexample :
    actorNameOf plainHandlerRecord = "Object"
  ∧ actorNameOf plainHandlerRecord ≠ "" := by
  decide

/-- C5 (amended): the actor name is resolved by instantiating a
constructable behaviour and then trying, in order, the truthy `name`
property (invoked when a function), `getName()`, and the constructor name;
the result is the empty string only when the constructor name is absent or
empty, and in particular a plain object-literal record resolves to
`"Object"` via its inherited constructor. -/
theorem c5_actor_name_priority (i : BehaviourInst) :
    (actorNameOf (Behaviour.constructable i) = actorNameOf (Behaviour.objValue i))
  ∧ (∀ s, namePropTruthy i = some s → actorNameOf (Behaviour.objValue i) = s)
  ∧ (∀ r, namePropTruthy i = none → i.getNameFn = some r →
      actorNameOf (Behaviour.objValue i) = r)
  ∧ (∀ c, namePropTruthy i = none → i.getNameFn = none → i.ctorName = some c →
      c ≠ "" → actorNameOf (Behaviour.objValue i) = c)
  ∧ (namePropTruthy i = none → i.getNameFn = none →
      (i.ctorName = none ∨ i.ctorName = some "") →
      actorNameOf (Behaviour.objValue i) = "")
  ∧ (i = { nameProp := none, getNameFn := none, ctorName := some "Object" } →
      actorNameOf (Behaviour.objValue i) = "Object") := by
  refine ⟨rfl, ?_, ?_, ?_, ?_, ?_⟩
  · intro s hs
    simp [actorNameOf, Behaviour.resolve, hs]
  · intro r hn hg
    simp [actorNameOf, Behaviour.resolve, hn, hg]
  · intro c hn hg hc hne
    simp [actorNameOf, Behaviour.resolve, hn, hg, hc, hne]
  · intro hn hg hc
    rcases hc with h | h <;> simp [actorNameOf, Behaviour.resolve, hn, hg, h]
  · intro hi
    subst hi
    rfl

/-- C5 witness: a behaviour with a function-valued `name` property
resolves to the string that function returns, ahead of `getName` and the
constructor name. -/
theorem c5_actor_name_priority_witness :
    actorNameOf (Behaviour.objValue
      { nameProp := some (NameVal.fnVal "Worker"), getNameFn := some "Ignored",
        ctorName := some "Klass" }) = "Worker" :=
  (c5_actor_name_priority
      { nameProp := some (NameVal.fnVal "Worker"), getNameFn := some "Ignored",
        ctorName := some "Klass" }).2.1 "Worker" (by decide)

/-- C6 counterexample: a path starting with `.` is not delegated to the
ambient module resolution — it is resolved under the application root; and
a path ending with `/` that starts with neither `/` nor `.` is delegated
unchanged instead of loading a directory. -/
theorem c6_require_counterexample :
    requireHelper "/root" "./mod" = RequireResult.globalAppReq "/root./mod"
  ∧ requireHelper "/root" "lib/" = RequireResult.globalReq "lib/" := by
  decide

/-- C6 (amended): a path whose first character is neither `/` nor `.` (or
the empty path) is delegated to the ambient module resolution unchanged; a
path starting with `/` or `.` loads the whole directory under
`appRoot ++ path` when it ends with `/`, and the single module under
`appRoot ++ path` otherwise. -/
theorem c6_require_resolution (appRoot p : String) :
    (p.data = [] → requireHelper appRoot p = RequireResult.globalReq p)
  ∧ (∀ c cs, p.data = c :: cs → c ≠ '/' → c ≠ '.' →
      requireHelper appRoot p = RequireResult.globalReq p)
  ∧ (∀ c cs, p.data = c :: cs → (c = '/' ∨ c = '.') → p.data.getLast? = some '/' →
      requireHelper appRoot p = RequireResult.dirReq (appRoot ++ p))
  ∧ (∀ c cs, p.data = c :: cs → (c = '/' ∨ c = '.') → p.data.getLast? ≠ some '/' →
      requireHelper appRoot p = RequireResult.globalAppReq (appRoot ++ p)) := by
  refine ⟨?_, ?_, ?_, ?_⟩
  · intro h
    simp [requireHelper, h]
  · intro c cs h h1 h2
    simp [requireHelper, h, h1, h2]
  · intro c cs h hstart hlast
    have hne : ¬(c ≠ '/' ∧ c ≠ '.') := by
      rcases hstart with h0 | h0 <;> simp [h0]
    simp only [requireHelper, h]
    rw [if_neg hne, if_pos (h ▸ hlast)]
  · intro c cs h hstart hlast
    have hne : ¬(c ≠ '/' ∧ c ≠ '.') := by
      rcases hstart with h0 | h0 <;> simp [h0]
    simp only [requireHelper, h]
    rw [if_neg hne, if_neg (h ▸ hlast)]

/-- C6 witness: the amended statement evaluated at the app-root-relative
directory path `/actors/`, which loads the whole directory. -/
theorem c6_require_resolution_witness :
    requireHelper "/root" "/actors/" = RequireResult.dirReq "/root/actors/" :=
  (c6_require_resolution "/root" "/actors/").2.2.1 '/'
    ['a', 'c', 't', 'o', 'r', 's', '/'] (by decide) (Or.inl rfl) (by decide)

theorem rewriteArgs_no_match (c : Nat) (l : List String)
    (h : ∀ a ∈ l, parseDebugBrk a = none) :
    rewriteArgs c l = (l, c) := by
  induction l with
  | nil => rfl
  | cons hd tl ih =>
      have hhd := h hd (by simp)
      have htl : ∀ a ∈ tl, parseDebugBrk a = none := fun a ha => h a (by simp [ha])
      simp [rewriteArgs, rewriteArg, hhd, ih htl]

theorem rewriteArgs_single_match (c : Nat) (pre post : List String) (arg : String)
    (p : Nat) (hp : parseDebugBrk arg = some p)
    (hpre : ∀ a ∈ pre, parseDebugBrk a = none)
    (hpost : ∀ a ∈ post, parseDebugBrk a = none) :
    rewriteArgs c (pre ++ arg :: post)
      = (pre ++ (debugBrkFlag ++ toString (p + c)) :: post, c + 1) := by
  induction pre generalizing c with
  | nil =>
      simp [rewriteArgs, rewriteArg, hp, rewriteArgs_no_match (c + 1) post hpost]
  | cons hd tl ih =>
      have hhd := hpre hd (by simp)
      have htl : ∀ a ∈ tl, parseDebugBrk a = none := fun a ha => hpre a (by simp [ha])
      simp [rewriteArgs, rewriteArg, hhd, ih c htl]

theorem spawnSeq_single_match_get (pre post : List String) (arg : String) (p : Nat)
    (hp : parseDebugBrk arg = some p)
    (hpre : ∀ a ∈ pre, parseDebugBrk a = none)
    (hpost : ∀ a ∈ post, parseDebugBrk a = none) :
    ∀ n i c, i < n →
      (spawnSeq (pre ++ arg :: post) c n)[i]?
        = some (pre ++ (debugBrkFlag ++ toString (p + (c + i))) :: post) := by
  intro n
  induction n with
  | zero => intro i c hi; omega
  | succ k ih =>
      intro i c hi
      cases i with
      | zero =>
          simp [spawnSeq, rewriteArgs_single_match c pre post arg p hp hpre hpost]
      | succ j =>
          have hj : j < k := by omega
          have step := ih j (c + 1) hj
          have hcount : p + (c + 1 + j) = p + (c + (j + 1)) := by omega
          rw [hcount] at step
          simpa [spawnSeq, rewriteArgs_single_match c pre post arg p hp hpre hpost]
            using step

/-- C7: for a forked spawn, every `--debug-brk=<port>` argument is
rewritten to `--debug-brk=<port + counter>` with the counter starting at 1
and incremented after each rewrite; hence over a sequence of spawns that
each carry exactly one matching argument, child `i` receives port
`p + (1 + i)`, all other arguments are forwarded unchanged, and distinct
children receive distinct ports. -/
theorem c7_debug_port_rewrite (pre post : List String) (arg : String) (p : Nat)
    (hp : parseDebugBrk arg = some p)
    (hpre : ∀ a ∈ pre, parseDebugBrk a = none)
    (hpost : ∀ a ∈ post, parseDebugBrk a = none)
    (n i j : Nat) (hi : i < n) (hj : j < n) (hij : i ≠ j) :
    (spawnSeq (pre ++ arg :: post) 1 n)[i]?
        = some (pre ++ (debugBrkFlag ++ toString (p + (1 + i))) :: post)
  ∧ (spawnSeq (pre ++ arg :: post) 1 n)[j]?
        = some (pre ++ (debugBrkFlag ++ toString (p + (1 + j))) :: post)
  ∧ p + (1 + i) ≠ p + (1 + j) :=
  ⟨spawnSeq_single_match_get pre post arg p hp hpre hpost n i 1 hi,
   spawnSeq_single_match_get pre post arg p hp hpre hpost n j 1 hj,
   by omega⟩

/-- C7 witness: with `execArgv = ["--x", "--debug-brk=5858"]`, two
successive spawns receive ports 5859 and 5860 and forward `--x`
unchanged. -/
theorem c7_debug_port_rewrite_witness :
    (spawnSeq ["--x", "--debug-brk=5858"] 1 2)[0]? = some ["--x", "--debug-brk=5859"]
  ∧ (spawnSeq ["--x", "--debug-brk=5858"] 1 2)[1]? = some ["--x", "--debug-brk=5860"] := by
  have h := c7_debug_port_rewrite ["--x"] [] "--debug-brk=5858" 5858
    (by decide) (by decide) (by decide) 2 0 1 (by decide) (by decide) (by decide)
  exact ⟨h.1.trans (by decide), h.2.1.trans (by decide)⟩

/-- C8 (code bug evidence): `ActorSystem.default()` as written never
lazily initializes — starting from an unset `defaultSystem` it allocates
nothing and returns `undefined`, and when a default system does exist it
reallocates a fresh instance on every call instead of returning the cached
one. -/
theorem c8_default_accessor_behaviour :
    defaultAccessor none 1 = (none, none)
  ∧ defaultAccessor (some 1) 2 = (some 2, some 2) :=
  ⟨rfl, rfl⟩

/-- C9: `LogWrapper.error` forwards its message to the underlying logger
at every level with no level guard; a silent logger (level `Silent`) emits
nothing for `debug`, `log`, `info` or `warn`, yet still emits error
messages. -/
theorem c9_error_bypasses_level (level : Nat) (m : ErrMessage) (s : String) :
    LogWrapper.errorOut level m = [(LogChan.errChan, errMessageString m)]
  ∧ LogWrapper.debugOut silentLevel s = []
  ∧ LogWrapper.logOut silentLevel s = []
  ∧ LogWrapper.infoOut silentLevel s = []
  ∧ LogWrapper.warnOut silentLevel s = []
  ∧ LogWrapper.errorOut silentLevel (ErrMessage.plain s) = [(LogChan.errChan, s)] :=
  ⟨rfl, rfl, rfl, rfl, rfl, rfl⟩

/-- C10 counterexample: assigning a value whose `categories` property is
`null` leaves the stored configuration without a `categories` object —
`typeof null === "object"` lets `null` pass the setter's validity test, so
no repair is performed, contradicting the claim that after every
assignment the stored configuration has a `categories` object. -/
theorem c10_null_categories_counterexample :
    currentSetter (some { categories := some CategoriesVal.nullVal })
      = { stored := some { categories := some CategoriesVal.nullVal }, events := 1 }
  ∧ hasCategoriesObject
      (currentSetter (some { categories := some CategoriesVal.nullVal })).stored = false :=
  ⟨rfl, rfl⟩

/-- C10 (amended): every assignment to `LoggerConfiguration.current` emits
exactly one `configChange` event; a null-ish assigned value is replaced by
a fresh `{categories: {Default: Info}}` object (lodash's `_.extend`
coerces its null-ish destination), and a value whose `categories` fails
the `typeof`-object test is repaired in place with `{Default: Info}`; a
value whose `categories` is already a real object is stored unchanged.
The stored configuration therefore lacks a `categories` object after an
assignment exactly when the assigned value's `categories` is `null`,
which passes the `typeof` test and is stored unchanged. -/
theorem c10_current_setter_repair (v : Option ConfigDict) :
    (currentSetter v).events = 1
  ∧ (v = none →
      currentSetter v
        = { stored := some { categories := some defaultCategories }, events := 1 })
  ∧ (∀ d, v = some d → typeofIsObject d.categories = false →
      currentSetter v
        = { stored := some { d with categories := some defaultCategories }, events := 1 })
  ∧ (∀ d m, v = some d → d.categories = some (CategoriesVal.objVal m) →
      currentSetter v = { stored := some d, events := 1 })
  ∧ (hasCategoriesObject (currentSetter v).stored = false
      ↔ v = some { categories := some CategoriesVal.nullVal }) := by
  refine ⟨rfl, ?_, ?_, ?_, ?_⟩
  · intro h
    subst h
    rfl
  · intro d h hinv
    subst h
    simp [currentSetter, extendWithDefaultCategories, hinv]
  · intro d m h hcat
    subst h
    simp [currentSetter, typeofIsObject, hcat]
  · cases v with
    | none =>
        simp [currentSetter, extendWithDefaultCategories, hasCategoriesObject,
          defaultCategories]
    | some d =>
        cases d with
        | mk cat =>
            cases cat with
            | none =>
                simp [currentSetter, typeofIsObject, extendWithDefaultCategories,
                  hasCategoriesObject, defaultCategories]
            | some cv =>
                cases cv <;>
                  simp [currentSetter, typeofIsObject, extendWithDefaultCategories,
                    hasCategoriesObject, defaultCategories]

/-- C10 witness: the amended statement evaluated at a value whose
`categories` is a non-object (the string `"5"`), which is repaired in
place with `{Default: Info}`. -/
theorem c10_current_setter_repair_witness :
    currentSetter (some { categories := some (CategoriesVal.otherVal "5") })
      = { stored := some { categories := some defaultCategories }, events := 1 } :=
  (c10_current_setter_repair
      (some { categories := some (CategoriesVal.otherVal "5") })).2.2.1
    { categories := some (CategoriesVal.otherVal "5") } rfl rfl

end AbstractComedy
